import Mathlib

/-!
# Verification of the api-proxy capability gateway

A shallow embedding, in Lean 4, of the policy gate, confirmation engine,
web approval queue and backend retry logic of the `api-proxy` repository
(`src/api_proxy/main.py`, `confirmation.py`, `web_confirmation.py`,
`gmail/handlers.py`, `calendar/handlers.py`, `calendar/client.py`),
together with theorems settling the specification's claims about them.

Python strings are modelled as `List Char` (`PyStr`), with the handful of
string primitives the code uses (`str.lower`, `str.upper`, `str.split("/")`,
`str.rstrip("/")`, `str.strip()`, `str.startswith`) re-implemented
faithfully for the ASCII strings the proxy manipulates.
-/

set_option autoImplicit false

namespace ApiProxy

/-- Python strings, modelled as lists of characters. -/
abbrev PyStr := List Char

/-- Coerce a Lean string literal to the `PyStr` model. -/
def pstr (s : String) : PyStr := s.data

/-- Python `str.lower()` (ASCII range, which covers every string the proxy
compares case-insensitively). -/
def pyLower (s : PyStr) : PyStr := s.map Char.toLower

/-- Python `str.upper()` (ASCII range). -/
def pyUpper (s : PyStr) : PyStr := s.map Char.toUpper

/-- Python `str.split(sep)` for a single-character separator `c`:
`"".split("/") = [""]`, `"a//b".split("/") = ["a","","b"]`. -/
def splitOnChar (c : Char) : List Char → List (List Char)
  | [] => [[]]
  | x :: xs =>
    if x = c then
      [] :: splitOnChar c xs
    else
      match splitOnChar c xs with
      | [] => [[x]]
      | s :: rest => (x :: s) :: rest

/-- Python `str.split("/")`. -/
def pySplit (s : PyStr) : List PyStr := splitOnChar '/' s

/-- Python `str.rstrip("/")`: remove every trailing `'/'`. -/
def pyRstripSlash (s : PyStr) : PyStr :=
  (s.reverse.dropWhile (fun c => c = '/')).reverse

/-- The whitespace characters stripped by Python `str.strip()` (ASCII part). -/
def pyIsSpace (c : Char) : Bool :=
  c = ' ' || c = '\t' || c = '\n' || c = '\r' ||
    c = Char.ofNat 11 || c = Char.ofNat 12

/-- Python `str.strip()` (ASCII whitespace). -/
def pyStrip (s : PyStr) : PyStr :=
  ((s.dropWhile pyIsSpace).reverse.dropWhile pyIsSpace).reverse

/-! ## Policy gate (`main.py`) -/

/-- A pattern segment of the form `{name}`:
`pattern_part.startswith("{") and pattern_part.endswith("}")`. -/
def isPlaceholder (seg : PyStr) : Bool :=
  seg.head? = some '{' && seg.getLast? = some '}'

/-- The per-segment comparison loop of `matches_path_pattern`: equal length
(Python checks `len` before zipping) and each pattern part either a
`{placeholder}` or equal to the path part. -/
def segMatches : List PyStr → List PyStr → Bool
  | [], [] => true
  | p :: ps, q :: qs => (isPlaceholder p || p = q) && segMatches ps qs
  | _, _ => false

/-- Function `matches_path_pattern(path, pattern)` from `main.py`: lowercase both
strings, split on `"/"`, require equal segment counts, and match
segment-wise with `{name}` wildcards. -/
def matches_path_pattern (path pat : PyStr) : Bool :=
  segMatches (pySplit (pyLower pat)) (pySplit (pyLower path))

/-- Table `BLOCKED_PATHS` from `main.py`. -/
def BLOCKED_PATHS : List PyStr :=
  [ pstr "/gmail/v1/users/{user_id}/messages/send",
    pstr "/gmail/v1/users/{user_id}/drafts",
    pstr "/gmail/v1/users/{user_id}/drafts/send",
    pstr "/gmail/v1/users/{user_id}/drafts/{draft_id}",
    pstr "/gmail/v1/users/{user_id}/messages/import",
    pstr "/gmail/v1/users/{user_id}/messages/insert" ]

/-- Table `ALLOWED_OPERATIONS` from `main.py`: `(HTTP method, path pattern)`. -/
def ALLOWED_OPERATIONS : List (PyStr × PyStr) :=
  [ (pstr "GET", pstr "/gmail/v1/users/{user_id}/messages"),
    (pstr "GET", pstr "/gmail/v1/users/{user_id}/messages/{message_id}"),
    (pstr "GET", pstr "/gmail/v1/users/{user_id}/labels"),
    (pstr "GET", pstr "/gmail/v1/users/{user_id}/labels/{label_id}"),
    (pstr "POST", pstr "/gmail/v1/users/{user_id}/messages/{message_id}/modify"),
    (pstr "POST", pstr "/gmail/v1/users/{user_id}/messages/{message_id}/trash"),
    (pstr "POST", pstr "/gmail/v1/users/{user_id}/messages/{message_id}/untrash"),
    (pstr "GET", pstr "/calendar/v3/users/me/calendarList"),
    (pstr "GET", pstr "/calendar/v3/calendars/{calendar_id}"),
    (pstr "GET", pstr "/calendar/v3/calendars/{calendar_id}/events"),
    (pstr "GET", pstr "/calendar/v3/calendars/{calendar_id}/events/{event_id}"),
    (pstr "POST", pstr "/calendar/v3/calendars/{calendar_id}/events"),
    (pstr "PUT", pstr "/calendar/v3/calendars/{calendar_id}/events/{event_id}"),
    (pstr "PATCH", pstr "/calendar/v3/calendars/{calendar_id}/events/{event_id}"),
    (pstr "DELETE", pstr "/calendar/v3/calendars/{calendar_id}/events/{event_id}") ]

/-- Function `is_blocked_path(path)` from `main.py`. -/
def is_blocked_path (path : PyStr) : Bool :=
  let p := pyRstripSlash path
  BLOCKED_PATHS.any (fun pat => matches_path_pattern p pat)

/-- Function `is_allowed_path(path, method)` from `main.py`. -/
def is_allowed_path (path method : PyStr) : Bool :=
  let p := pyRstripSlash path
  let pl := pyLower p
  if pl = pstr "/health" then true
  else if pl = pstr "/docs" || pl = pstr "/openapi.json" || pl = pstr "/redoc" then true
  else if (pstr "/approval").isPrefixOf pl then true
  else ALLOWED_OPERATIONS.any
    (fun mp => pyUpper method = mp.1 && matches_path_pattern p mp.2)

/-- The JSON error envelope `{"error": ..., "message": ...}` with its HTTP
status, as produced by `JSONResponse(status_code=..., content=ErrorResponse...)`. -/
structure ErrResp where
  status : Nat
  error : PyStr
  message : PyStr
  deriving DecidableEq, Repr

/-- Outcome of the `check_blocked_operations` middleware: either the request
is denied with an error response (no backend call, `call_next` never runs),
or it proceeds down the stack. -/
inductive MwResult where
  | deny (r : ErrResp)
  | proceed
  deriving DecidableEq, Repr

/-- The 403 response body both denial branches produce:
`ErrorResponse.forbidden_error("This operation is not allowed")`. -/
def forbiddenResp : ErrResp :=
  ⟨403, pstr "forbidden", pstr "This operation is not allowed"⟩

/-- The `check_blocked_operations` middleware from `main.py`: skip the check
for `/health`, deny if the path is explicitly blocked, deny if the
(method, path) pair is not allowlisted, otherwise continue. -/
def check_blocked_operations (method path : PyStr) : MwResult :=
  if path = pstr "/health" then .proceed
  else if is_blocked_path path then .deny forbiddenResp
  else if !(is_allowed_path path method) then .deny forbiddenResp
  else .proceed

/-! ## Confirmation mode resolver (`config.py`, `confirmation.py`) -/

/-- Enum `ConfirmationMode` from `config.py`. -/
inductive ConfirmationMode where
  | NONE
  | MODIFY
  | ALL
  deriving DecidableEq, Repr

/-- Function `requires_confirmation` from `confirmation.py` (its `method` argument is
never consulted; the mode is read from the global config, passed here
explicitly). -/
def requires_confirmation (mode : ConfirmationMode) (is_modify_operation : Bool) : Bool :=
  match mode with
  | .NONE => false
  | .ALL => true
  | .MODIFY => is_modify_operation

/-! ## Console confirmation (`confirmation.py`) -/

/-- The outcome of `ConfirmationHandler._get_input`: `none` when the
deadline expired (the `TimeoutError` is caught and `None` returned),
otherwise the operator's line after `result.strip().lower()`. -/
def get_input_result (rawLine : PyStr) (timedOut : Bool) : Option PyStr :=
  if timedOut then none else some (pyLower (pyStrip rawLine))

/-- The decision of the console branch of `ConfirmationHandler.confirm`:
`response in ("y", "yes")`; a `None` response (timeout) falls to the
rejection branch. -/
def confirm_console_decision (response : Option PyStr) : Bool :=
  match response with
  | some r => r = pstr "y" || r = pstr "yes"
  | none => false

/-- Console confirmation end to end: read a line (or time out), then decide.
Timeout is an ordinary `false` return, never an exception. -/
def confirm_console (rawLine : PyStr) (timedOut : Bool) : Bool :=
  confirm_console_decision (get_input_result rawLine timedOut)

/-! ## Per-operation confirmation decisions
(`gmail/handlers.py`, `calendar/handlers.py`) -/

/-- Predicate `_should_confirm_invitation(send_updates)` from `calendar/handlers.py`:
`send_updates is not None and send_updates in ("all", "externalOnly")`. -/
def should_confirm_invitation (send_updates : Option PyStr) : Bool :=
  match send_updates with
  | none => false
  | some s => s = pstr "all" || s = pstr "externalOnly"

/-- The routed operations of the proxy. Calendar event operations carry the
`sendUpdates` query parameter, the only request datum the confirmation
decision ever reads. -/
inductive ProxyOp where
  | listMessages
  | getMessage
  | getThread
  | listLabels
  | getLabel
  | modifyMessage
  | trashMessage
  | untrashMessage
  | listCalendars
  | getCalendar
  | listEvents
  | getEvent
  | createEvent (sendUpdates : Option PyStr)
  | updateEvent (sendUpdates : Option PyStr)
  | patchEvent (sendUpdates : Option PyStr)
  | deleteEvent (sendUpdates : Option PyStr)
  deriving DecidableEq

/-- Whether the handler for an operation asks the operator for confirmation,
as a function of the configured mode. Transcribed from each route handler:
read handlers pass `is_modify=False`; `modify_message` performs no
confirmation call at all ("Label modifications are not gated");
`trash_message`/`untrash_message` pass `is_modify_operation=True`;
`create_event`/`update_event`/`patch_event` pass
`is_modify=_should_confirm_invitation(sendUpdates)`; `delete_event` passes
`is_modify=True`. -/
def confirmation_requested (mode : ConfirmationMode) : ProxyOp → Bool
  | .listMessages => requires_confirmation mode false
  | .getMessage => requires_confirmation mode false
  | .getThread => requires_confirmation mode false
  | .listLabels => requires_confirmation mode false
  | .getLabel => requires_confirmation mode false
  | .modifyMessage => false
  | .trashMessage => requires_confirmation mode true
  | .untrashMessage => requires_confirmation mode true
  | .listCalendars => requires_confirmation mode false
  | .getCalendar => requires_confirmation mode false
  | .listEvents => requires_confirmation mode false
  | .getEvent => requires_confirmation mode false
  | .createEvent su => requires_confirmation mode (should_confirm_invitation su)
  | .updateEvent su => requires_confirmation mode (should_confirm_invitation su)
  | .patchEvent su => requires_confirmation mode (should_confirm_invitation su)
  | .deleteEvent _ => requires_confirmation mode true

/-! ## Calendar backend client with retry-on-401 (`calendar/client.py`) -/

/-- An upstream HTTP response; `body` is an opaque tag distinguishing
distinct responses. -/
structure HttpResp where
  status : Nat
  body : Nat
  deriving DecidableEq, Repr

/-- Result of `CalendarClient.request`: `err` models the
`RuntimeError("Backend authentication failed")` raised when no credential
is available; `ok resp calls` carries the returned response and the indices
of the outbound backend calls that were made, in order. -/
inductive ClientResult where
  | err
  | ok (resp : HttpResp) (calls : List Nat)
  deriving DecidableEq, Repr

/-- Method `CalendarClient.request` from `calendar/client.py`. `creds` is the
result of `_get_credentials()`; `backend i` is the response the upstream
gives to the `i`-th outbound call; `forceRefresh` is the credential
returned by `_force_refresh_credentials()` (`none` on refresh failure).
Faithful to the source: one call; on a 401, one forced refresh; on refresh
success one retry whose response is final whatever its status; on refresh
failure the original 401 is returned unmodified. -/
def calendar_client_request (creds : Option Nat) (backend : Nat → HttpResp)
    (forceRefresh : Option Nat) : ClientResult :=
  match creds with
  | none => .err
  | some _ =>
    let r0 := backend 0
    if r0.status = 401 then
      match forceRefresh with
      | some _ => .ok (backend 1) [0, 1]
      | none => .ok r0 [0]
    else .ok r0 [0]

/-- The outbound call trace of a client result. -/
def client_calls : ClientResult → List Nat
  | .err => []
  | .ok _ calls => calls

/-! ## Web confirmation queue (`web_confirmation.py`)

The queue's pending table is a deque (`_queue`) plus an id-indexed dict
(`_by_id`); every `PendingRequest` owns an `asyncio.Future` settled at most
once. All mutation happens inside `async with self._lock` blocks, so each
such block is one atomic step here. The futures live in a separate map so
a settled future survives removal of its table entry, as in the source. -/

/-- The data of a `PendingRequest`, without its future (`_pending_to_dict`
excludes the future). -/
structure Pending where
  id : Nat
  method : PyStr
  path : PyStr
  deriving DecidableEq, Repr

/-- The state of an `asyncio.Future`: `unset` (not `done()`), settled by
`set_result`, or cancelled (what `asyncio.wait_for` does on timeout).
Settled and cancelled futures are both `done()`. -/
inductive FutState where
  | unset
  | settled (b : Bool)
  | cancelled
  deriving DecidableEq, Repr

/-- Dict lookup (`key in d` / `d[key]`). -/
def alookup {α : Type} (k : Nat) : List (Nat × α) → Option α
  | [] => none
  | (k', v) :: rest => if k = k' then some v else alookup k rest

/-- Dict removal (`d.pop(key)` without its return value). -/
def aerase {α : Type} (k : Nat) : List (Nat × α) → List (Nat × α)
  | [] => []
  | (k', v) :: rest => if k = k' then rest else (k', v) :: aerase k rest

/-- Dict assignment (`d[key] = v`). -/
def aset {α : Type} (k : Nat) (v : α) : List (Nat × α) → List (Nat × α)
  | [] => [(k, v)]
  | (k', v') :: rest => if k = k' then (k, v) :: rest else (k', v') :: aset k v rest

/-- Python `deque.remove(x)` with the surrounding `except ValueError: pass`:
remove the first occurrence, or leave the deque unchanged. -/
def dequeRemove (p : Pending) : List Pending → List Pending
  | [] => []
  | q :: qs => if q = p then qs else q :: dequeRemove p qs

/-- State of a `WebConfirmationQueue`, instrumented with the list of ids
popped from the table (`removedIds`) so removal counts can be stated. -/
structure WQState where
  queue : List Pending
  byId : List (Nat × Pending)
  futs : List (Nat × FutState)
  removedIds : List Nat
  deriving DecidableEq, Repr

/-- The empty queue built by `WebConfirmationQueue.__init__`. -/
def initState : WQState := ⟨[], [], [], []⟩

/-- The enqueue part of `add_request` (inside `async with self._lock`):
append to the deque, insert into the dict, create a fresh unset future. -/
def add_request_entry (st : WQState) (p : Pending) : WQState :=
  { st with
      queue := st.queue ++ [p],
      byId := aset p.id p st.byId,
      futs := aset p.id .unset st.futs }

/-- The guarded settlement
`if not pending.result_future.done(): pending.result_future.set_result(b)`:
settle the future only when it is not yet done. -/
def settleFut (futs : List (Nat × FutState)) (k : Nat) (b : Bool) :
    List (Nat × FutState) :=
  match alookup k futs with
  | some .unset => aset k (.settled b) futs
  | _ => futs

/-- Method `WebConfirmationQueue.approve`: unknown id returns `False` untouched;
otherwise pop the entry, remove it from the deque, and settle the future
with `True` if it is not already done. -/
def approve_step (st : WQState) (rid : Nat) : WQState × Bool :=
  match alookup rid st.byId with
  | none => (st, false)
  | some p =>
      ({ st with
          byId := aerase rid st.byId,
          queue := dequeRemove p st.queue,
          futs := settleFut st.futs rid true,
          removedIds := st.removedIds ++ [rid] }, true)

/-- Method `WebConfirmationQueue.reject`: as `approve`, settling with `False`. -/
def reject_step (st : WQState) (rid : Nat) : WQState × Bool :=
  match alookup rid st.byId with
  | none => (st, false)
  | some p =>
      ({ st with
          byId := aerase rid st.byId,
          queue := dequeRemove p st.queue,
          futs := settleFut st.futs rid false,
          removedIds := st.removedIds ++ [rid] }, true)

/-- The cancellation `asyncio.wait_for` performs when the deadline expires:
the future is cancelled only if it is not already done (a future settled
first makes `wait_for` return its result instead of timing out). -/
def timeout_cancel (st : WQState) (rid : Nat) : WQState :=
  match alookup rid st.futs with
  | some .unset => { st with futs := aset rid .cancelled st.futs }
  | _ => st

/-- The `except TimeoutError` cleanup of `add_request` (inside
`async with self._lock`): pop the id if still present and remove the entry
from the deque; idempotent when a concurrent approve/reject already
removed it. -/
def timeout_cleanup (st : WQState) (rid : Nat) : WQState :=
  match alookup rid st.byId with
  | none => st
  | some p =>
      { st with
          byId := aerase rid st.byId,
          queue := dequeRemove p st.queue,
          removedIds := st.removedIds ++ [rid] }

/-- Methods `get_pending` / `get_pending_sync`: the still-pending entries in deque
(insertion) order, futures excluded. -/
def get_pending (st : WQState) : List Pending := st.queue

/-- The atomic steps that can interleave for one queue: each holds the
queue lock for its whole critical section (`timeout_cancel` is the
event-loop-atomic future cancellation inside `asyncio.wait_for`). -/
inductive WAction where
  | approve (rid : Nat)
  | reject (rid : Nat)
  | cancel (rid : Nat)
  | cleanup (rid : Nat)
  deriving DecidableEq, Repr

/-- One atomic step of the queue. -/
def wstep (st : WQState) : WAction → WQState
  | .approve rid => (approve_step st rid).1
  | .reject rid => (reject_step st rid).1
  | .cancel rid => timeout_cancel st rid
  | .cleanup rid => timeout_cleanup st rid

/-- Run a sequence of atomic steps (one interleaving). -/
def wrun (st : WQState) : List WAction → WQState
  | [] => st
  | a :: tl => wrun (wstep st a) tl

/-! ## The web-mode call in `ConfirmationHandler.confirm` (`confirmation.py`)

Python raises `TypeError` when a call passes a keyword argument the callee's
signature does not declare. The two keyword lists below are transcribed
from the source: the keywords `confirm` passes to
`self._web_queue.add_request(...)`, and the parameters
`WebConfirmationQueue.add_request` declares. -/

/-- The keyword arguments `ConfirmationHandler.confirm` passes to
`WebConfirmationQueue.add_request` in web mode (`confirmation.py`,
lines 115-127). -/
def confirm_web_call_kwargs : List String :=
  ["method", "path", "query_params", "labels_to_add", "labels_to_remove",
   "message_subject", "message_from", "message_snippet",
   "event_summary", "event_attendees", "send_updates"]

/-- The named parameters of `WebConfirmationQueue.add_request`
(`web_confirmation.py`, lines 87-97), `self` aside. -/
def add_request_params : List String :=
  ["method", "path", "query_params", "labels_to_add", "labels_to_remove",
   "event_summary", "event_attendees", "send_updates"]

/-- Python call semantics: the call raises `TypeError` ("unexpected keyword
argument") exactly when some passed keyword is not a declared parameter. -/
def web_confirm_call_raises_type_error : Bool :=
  !(confirm_web_call_kwargs.all (fun k => add_request_params.contains k))

/-! ## Supporting lemmas -/

theorem list_ne_of_get1 {l1 l2 : List Char} {a b : Char} (h : a ≠ b)
    (h1 : List.get? l1 1 = some a) (h2 : List.get? l2 1 = some b) : l1 ≠ l2 := by
  intro he
  rw [he, h2] at h1
  exact h (Option.some.inj h1).symm

theorem splitOnChar_slash_cons (l : List Char) :
    splitOnChar '/' ('/' :: l) = [] :: splitOnChar '/' l := by
  simp [splitOnChar]

theorem splitOnChar_append_cons (c : Char) (l1 l2 : List Char) (h : c ∉ l1) :
    splitOnChar c (l1 ++ c :: l2) = l1 :: splitOnChar c l2 := by
  induction l1 with
  | nil => simp [splitOnChar]
  | cons x xs ih =>
      have hx : ¬(x = c) := fun he => h (he ▸ List.mem_cons_self x xs)
      have hxs : c ∉ xs := fun hm => h (List.mem_cons_of_mem x hm)
      simp only [List.cons_append, splitOnChar, if_neg hx, List.append_eq, ih hxs]

theorem splitOnChar_not_mem (c : Char) (l : List Char) (h : c ∉ l) :
    splitOnChar c l = [l] := by
  induction l with
  | nil => rfl
  | cons x xs ih =>
      have hx : ¬(x = c) := fun he => h (he ▸ List.mem_cons_self x xs)
      have hxs : c ∉ xs := fun hm => h (List.mem_cons_of_mem x hm)
      simp only [splitOnChar, if_neg hx, ih hxs]

theorem char_ofNat_add32_ne_slash (n : Nat) (h1 : 65 ≤ n) (h2 : n ≤ 90) :
    Char.ofNat (n + 32) ≠ '/' := by
  interval_cases n <;> decide

theorem toLower_eq_slash {c : Char} (h : c.toLower = '/') : c = '/' := by
  simp only [Char.toLower] at h
  split at h
  · next hn => exact absurd h (char_ofNat_add32_ne_slash c.toNat hn.1 hn.2)
  · exact h

theorem pyLower_no_slash {l : PyStr} (h : '/' ∉ l) : '/' ∉ pyLower l := by
  intro hm
  obtain ⟨c, hc, he⟩ := List.mem_map.mp hm
  exact h (toLower_eq_slash he ▸ hc)

theorem pyRstripSlash_append_ne (l : List Char) (c : Char) (h : ¬(c = '/')) :
    pyRstripSlash (l ++ [c]) = l ++ [c] := by
  unfold pyRstripSlash
  rw [List.reverse_append]
  simp [List.dropWhile, h]

theorem pyRstripSlash_append_right (X tid : List Char) (htid : '/' ∉ tid) (ht0 : tid ≠ []) :
    pyRstripSlash (X ++ tid) = X ++ tid := by
  rcases List.eq_nil_or_concat' tid with h | ⟨l, c, rfl⟩
  · exact absurd h ht0
  · have hc : ¬(c = '/') := fun he => htid (by simp [he])
    rw [← List.append_assoc]
    exact pyRstripSlash_append_ne _ _ hc

theorem segMatches_of_forall (ps : List PyStr) : ∀ (qs : List PyStr), ps.length = qs.length →
    (∀ pq ∈ ps.zip qs, isPlaceholder pq.1 = true ∨ pq.1 = pq.2) → segMatches ps qs = true := by
  induction ps with
  | nil =>
      intro qs hlen _
      cases qs with
      | nil => rfl
      | cons q qs => simp at hlen
  | cons p ps ih =>
      intro qs hlen h
      cases qs with
      | nil => simp at hlen
      | cons q qs =>
          simp only [segMatches, Bool.and_eq_true, Bool.or_eq_true, decide_eq_true_eq]
          constructor
          · exact h (p, q) (by simp)
          · exact ih qs (by simpa using hlen) (fun pq hpq => h pq (by simp [hpq]))

/-- Core of the fail-closed argument: when the lowered, slash-stripped path
is none of the unauthenticated endpoints and no allowlist entry matches,
the middleware denies with the generic forbidden envelope, whether or not
the path is also in the blocked table. -/
theorem deny_of_not_allowed (method path : PyStr)
    (h1 : pyLower (pyRstripSlash path) ≠ pstr "/health")
    (h2 : pyLower (pyRstripSlash path) ≠ pstr "/docs")
    (h3 : pyLower (pyRstripSlash path) ≠ pstr "/openapi.json")
    (h4 : pyLower (pyRstripSlash path) ≠ pstr "/redoc")
    (h5 : (pstr "/approval").isPrefixOf (pyLower (pyRstripSlash path)) = false)
    (h6 : ALLOWED_OPERATIONS.any
      (fun mp => pyUpper method = mp.1 && matches_path_pattern (pyRstripSlash path) mp.2) = false) :
    check_blocked_operations method path = .deny forbiddenResp := by
  have hallow : is_allowed_path path method = false := by
    unfold is_allowed_path
    simp only [if_neg h1]
    rw [if_neg (by simp [h2, h3, h4])]
    rw [if_neg (by simp [h5])]
    exact h6
  have hnh : path ≠ pstr "/health" := by
    intro he
    subst he
    exact h1 (by decide)
  unfold check_blocked_operations
  rw [if_neg hnh]
  by_cases hb : is_blocked_path path = true
  · rw [if_pos hb]
  · rw [if_neg hb, if_pos (by simp [hallow])]

/-- No allowlist entry matches a `GET` on a 7-segment path whose fifth
segment is `threads`: evaluated by reduction over the whole table, with the
user-id and thread-id segments left abstract. -/
theorem threads_get_not_allowed (U T : PyStr) :
    (ALLOWED_OPERATIONS.any (fun mp => pyUpper (pstr "GET") = mp.1 &&
      segMatches (pySplit (pyLower mp.2))
        [[], pstr "gmail", pstr "v1", pstr "users", U, pstr "threads", T])) = false := rfl

theorem alookup_aset_ne {α : Type} (k k2 : Nat) (v : α) (l : List (Nat × α)) (h : k2 ≠ k) :
    alookup k2 (aset k v l) = alookup k2 l := by
  induction l with
  | nil => simp [aset, alookup, h]
  | cons kv rest ih =>
      obtain ⟨k', v'⟩ := kv
      by_cases hk : k = k'
      · subst hk
        simp [aset, alookup, h, ih]
      · simp only [aset, if_neg hk]
        by_cases hk2 : k2 = k'
        · simp [alookup, hk2]
        · simp [alookup, hk2, ih]

/-- The settlement guard: `settleFut` never changes a future that is
already settled or cancelled. -/
theorem settleFut_preserves {futs : List (Nat × FutState)} {rid : Nat} {v : FutState}
    (k : Nat) (b : Bool) (hv : v ≠ FutState.unset) (h : alookup rid futs = some v) :
    alookup rid (settleFut futs k b) = some v := by
  unfold settleFut
  cases hk : alookup k futs with
  | none => simpa using h
  | some fs =>
      cases fs with
      | unset =>
          simp only []
          by_cases he : rid = k
          · subst he
            rw [h] at hk
            exact absurd (Option.some.inj hk) hv
          · rw [alookup_aset_ne k rid _ _ he]
            exact h
      | settled c => simpa using h
      | cancelled => simpa using h

/-- A done future (settled or cancelled) is never modified by any later
atomic step of the queue: the at-most-once settlement invariant. -/
theorem wstep_preserves_settled {st : WQState} {rid : Nat} {v : FutState} (a : WAction)
    (hv : v ≠ FutState.unset) (h : alookup rid st.futs = some v) :
    alookup rid (wstep st a).futs = some v := by
  cases a with
  | approve rid2 =>
      show alookup rid (approve_step st rid2).1.futs = some v
      unfold approve_step
      split
      · exact h
      · exact settleFut_preserves rid2 true hv h
  | reject rid2 =>
      show alookup rid (reject_step st rid2).1.futs = some v
      unfold reject_step
      split
      · exact h
      · exact settleFut_preserves rid2 false hv h
  | cancel rid2 =>
      show alookup rid (timeout_cancel st rid2).futs = some v
      unfold timeout_cancel
      split
      · next hk =>
          show alookup rid (aset rid2 FutState.cancelled st.futs) = some v
          by_cases he : rid = rid2
          · subst he
            rw [h] at hk
            exact absurd (Option.some.inj hk) hv
          · rw [alookup_aset_ne rid2 rid _ _ he]
            exact h
      · exact h
  | cleanup rid2 =>
      show alookup rid (timeout_cleanup st rid2).futs = some v
      unfold timeout_cleanup
      split
      · exact h
      · exact h

theorem wrun_preserves_settled {st : WQState} {rid : Nat} {v : FutState} (tr : List WAction)
    (hv : v ≠ FutState.unset) (h : alookup rid st.futs = some v) :
    alookup rid (wrun st tr).futs = some v := by
  induction tr generalizing st with
  | nil => exact h
  | cons a tl ih => exact ih (wstep_preserves_settled a hv h)

/-- Packaging for the race analysis: once the final state of an
interleaving is computed, the exactly-once properties follow from the
settlement-preservation invariant. -/
theorem web_race_final (p : Pending) (tr : List WAction) (S : WQState) (vfin : FutState)
    (h1 : wrun (add_request_entry initState p) tr = S)
    (hc : S.removedIds.count p.id = 1)
    (hv : vfin ≠ FutState.unset)
    (hf : alookup p.id S.futs = some vfin) :
    ((wrun (add_request_entry initState p) tr).removedIds.count p.id = 1) ∧
    (alookup p.id (wrun (add_request_entry initState p) tr).futs ≠ some FutState.unset) ∧
    (∀ tr2, alookup p.id (wrun (wrun (add_request_entry initState p) tr) tr2).futs
        = alookup p.id (wrun (add_request_entry initState p) tr).futs) := by
  subst h1
  refine ⟨hc, ?_, ?_⟩
  · rw [hf]
    intro he
    exact hv (Option.some.inj he)
  · intro tr2
    rw [hf]
    exact wrun_preserves_settled tr2 hv hf

/-! ## Claim theorems -/

/-- C1 (counterexample). The claim that in confirmation mode MUTATING_ONLY
every mutating-kind operation — including Gmail label changes
(messages/modify) and calendar event create/update — requires operator
confirmation is false on the code: the `modify_message` handler performs no
confirmation at all (even in mode ALL), and `create_event` treats the
request as non-mutating when `sendUpdates` is absent. -/
theorem mutating_confirmation_counterexample :
    confirmation_requested ConfirmationMode.MODIFY ProxyOp.modifyMessage = false ∧
    confirmation_requested ConfirmationMode.MODIFY (ProxyOp.createEvent none) = false ∧
    confirmation_requested ConfirmationMode.ALL ProxyOp.modifyMessage = false :=
  ⟨rfl, rfl, rfl⟩

/-- C1 (amended). In mode MUTATING_ONLY: trash/untrash and calendar event
delete always require confirmation; event create/update/patch require it
exactly when `sendUpdates` is `all` or `externalOnly`; Gmail label changes
(messages/modify) never require confirmation, in any mode. The decision
depends only on the operation type plus the `sendUpdates` parameter — the
`ProxyOp` type carries no other request data. -/
theorem mutating_confirmation_amended :
    (∀ mode, confirmation_requested mode ProxyOp.modifyMessage = false) ∧
    confirmation_requested ConfirmationMode.MODIFY ProxyOp.trashMessage = true ∧
    confirmation_requested ConfirmationMode.MODIFY ProxyOp.untrashMessage = true ∧
    (∀ su, confirmation_requested ConfirmationMode.MODIFY (ProxyOp.deleteEvent su) = true) ∧
    (∀ su, confirmation_requested ConfirmationMode.MODIFY (ProxyOp.createEvent su)
        = should_confirm_invitation su) ∧
    (∀ su, confirmation_requested ConfirmationMode.MODIFY (ProxyOp.updateEvent su)
        = should_confirm_invitation su) ∧
    (∀ su, confirmation_requested ConfirmationMode.MODIFY (ProxyOp.patchEvent su)
        = should_confirm_invitation su) ∧
    (∀ su, should_confirm_invitation su = true ↔
        (su = some (pstr "all") ∨ su = some (pstr "externalOnly"))) := by
  refine ⟨fun mode => rfl, rfl, rfl, fun su => rfl, fun su => rfl, fun su => rfl,
    fun su => rfl, fun su => ?_⟩
  cases su with
  | none => simp [should_confirm_invitation]
  | some str => simp [should_confirm_invitation]

/-- C2. Retry-on-401 in `CalendarClient.request`: when the first outbound
call returns 401 and the forced refresh succeeds, exactly two outbound
calls occur and the second response is final whatever its status; when the
refresh fails, exactly one call occurs and the original 401 is returned
unmodified; a non-401 first response is returned after exactly one call;
and never are more than two outbound calls made. -/
theorem retry_on_401 (c : Nat) (backend : Nat → HttpResp) (forceRefresh : Option Nat) :
    ((backend 0).status = 401 → forceRefresh.isSome = true →
      calendar_client_request (some c) backend forceRefresh = .ok (backend 1) [0, 1]) ∧
    ((backend 0).status = 401 → forceRefresh = none →
      calendar_client_request (some c) backend forceRefresh = .ok (backend 0) [0]) ∧
    ((backend 0).status ≠ 401 →
      calendar_client_request (some c) backend forceRefresh = .ok (backend 0) [0]) ∧
    (client_calls (calendar_client_request (some c) backend forceRefresh)).length ≤ 2 := by
  refine ⟨?_, ?_, ?_, ?_⟩
  · intro h401 hrs
    cases forceRefresh with
    | none => simp at hrs
    | some r => simp [calendar_client_request, h401]
  · intro h401 hrn
    subst hrn
    simp [calendar_client_request, h401]
  · intro hne
    simp [calendar_client_request, hne]
  · unfold calendar_client_request client_calls
    by_cases h : (backend 0).status = 401
    · cases forceRefresh <;> simp [h]
    · simp [h]

/-- C2 witness: a backend giving 401 then 200 with a working refresh yields
the 200 after two calls; a failing refresh surfaces the 401 after one. -/
theorem retry_on_401_witness :
    calendar_client_request (some 0) (fun i => if i = 0 then ⟨401, 0⟩ else ⟨200, 1⟩) (some 1)
      = .ok ⟨200, 1⟩ [0, 1] ∧
    calendar_client_request (some 0) (fun _ => ⟨401, 0⟩) none = .ok ⟨401, 0⟩ [0] := by
  refine ⟨?_, ?_⟩
  · exact (retry_on_401 0 (fun i => if i = 0 then ⟨401, 0⟩ else ⟨200, 1⟩) (some 1)).1
      (by decide) (by decide)
  · exact (retry_on_401 0 (fun _ => ⟨401, 0⟩) none).2.1 (by decide) rfl

/-- C3. Exactly-once settlement of a `PendingRequest`: for any interleaving
of the timeout path of `add_request` (future cancellation, then the
lock-held cleanup) with a concurrent `approve` or `reject` of the same id,
the id is removed from the pending table exactly once, the future ends up
done (so exactly one outcome is delivered to the waiting caller), and no
later step ever changes the future again — the settle guard
(`if not future.done()`) makes double settlement impossible. -/
theorem web_exactly_once_settlement (p : Pending) (op : WAction) (tr : List WAction)
    (hop : op = WAction.approve p.id ∨ op = WAction.reject p.id)
    (htr : tr = [op, WAction.cancel p.id, WAction.cleanup p.id] ∨
           tr = [WAction.cancel p.id, op, WAction.cleanup p.id] ∨
           tr = [WAction.cancel p.id, WAction.cleanup p.id, op]) :
    ((wrun (add_request_entry initState p) tr).removedIds.count p.id = 1) ∧
    (alookup p.id (wrun (add_request_entry initState p) tr).futs ≠ some FutState.unset) ∧
    (∀ tr2, alookup p.id (wrun (wrun (add_request_entry initState p) tr) tr2).futs
        = alookup p.id (wrun (add_request_entry initState p) tr).futs) := by
  rcases hop with hop | hop <;> rcases htr with htr | htr | htr <;> subst hop <;> subst htr
  · exact web_race_final p _ ⟨[], [], [(p.id, FutState.settled true)], [p.id]⟩
      (FutState.settled true)
      (by simp [wrun, wstep, add_request_entry, initState, approve_step, alookup, aerase,
        dequeRemove, settleFut, aset, timeout_cancel, timeout_cleanup])
      (by simp) (by decide) (by simp [alookup])
  · exact web_race_final p _ ⟨[], [], [(p.id, FutState.cancelled)], [p.id]⟩
      FutState.cancelled
      (by simp [wrun, wstep, add_request_entry, initState, approve_step, alookup, aerase,
        dequeRemove, settleFut, aset, timeout_cancel, timeout_cleanup])
      (by simp) (by decide) (by simp [alookup])
  · exact web_race_final p _ ⟨[], [], [(p.id, FutState.cancelled)], [p.id]⟩
      FutState.cancelled
      (by simp [wrun, wstep, add_request_entry, initState, approve_step, alookup, aerase,
        dequeRemove, settleFut, aset, timeout_cancel, timeout_cleanup])
      (by simp) (by decide) (by simp [alookup])
  · exact web_race_final p _ ⟨[], [], [(p.id, FutState.settled false)], [p.id]⟩
      (FutState.settled false)
      (by simp [wrun, wstep, add_request_entry, initState, reject_step, alookup, aerase,
        dequeRemove, settleFut, aset, timeout_cancel, timeout_cleanup])
      (by simp) (by decide) (by simp [alookup])
  · exact web_race_final p _ ⟨[], [], [(p.id, FutState.cancelled)], [p.id]⟩
      FutState.cancelled
      (by simp [wrun, wstep, add_request_entry, initState, reject_step, alookup, aerase,
        dequeRemove, settleFut, aset, timeout_cancel, timeout_cleanup])
      (by simp) (by decide) (by simp [alookup])
  · exact web_race_final p _ ⟨[], [], [(p.id, FutState.cancelled)], [p.id]⟩
      FutState.cancelled
      (by simp [wrun, wstep, add_request_entry, initState, reject_step, alookup, aerase,
        dequeRemove, settleFut, aset, timeout_cancel, timeout_cleanup])
      (by simp) (by decide) (by simp [alookup])

/-- C3 witness: the cancel-approve-cleanup interleaving for a concrete
pending request settles once and removes the entry once. -/
theorem web_exactly_once_settlement_witness :
    ((wrun (add_request_entry initState ⟨7, pstr "POST", pstr "/x"⟩)
        [WAction.cancel 7, WAction.approve 7, WAction.cleanup 7]).removedIds.count 7 = 1) ∧
    (alookup 7 (wrun (add_request_entry initState ⟨7, pstr "POST", pstr "/x"⟩)
        [WAction.cancel 7, WAction.approve 7, WAction.cleanup 7]).futs ≠ some FutState.unset) ∧
    (∀ tr2, alookup 7 (wrun (wrun (add_request_entry initState ⟨7, pstr "POST", pstr "/x"⟩)
        [WAction.cancel 7, WAction.approve 7, WAction.cleanup 7]) tr2).futs
        = alookup 7 (wrun (add_request_entry initState ⟨7, pstr "POST", pstr "/x"⟩)
        [WAction.cancel 7, WAction.approve 7, WAction.cleanup 7]).futs) :=
  web_exactly_once_settlement ⟨7, pstr "POST", pstr "/x"⟩ (WAction.approve 7) _
    (Or.inl rfl) (Or.inr (Or.inl rfl))

/-- C4. Every path matching a blocked-table entry — matching per
`/`-separated segment, case-insensitively, after stripping trailing
slashes, with `{name}` wildcards — is denied with the 403 forbidden
envelope for every HTTP method, before the request can reach any handler
or backend call; no allowlist hypothesis is needed, so the blocked check
wins over the allowlist. -/
theorem blocked_paths_denied (method path : PyStr)
    (h : is_blocked_path path = true) :
    check_blocked_operations method path = .deny forbiddenResp := by
  unfold check_blocked_operations
  by_cases hh : path = pstr "/health"
  · subst hh
    exact absurd h (by decide)
  · rw [if_neg hh, if_pos h]

/-- C4 witness: the blocked send endpoint is denied. -/
theorem blocked_paths_denied_witness :
    is_blocked_path (pstr "/gmail/v1/users/me/messages/send") = true ∧
    check_blocked_operations (pstr "POST") (pstr "/gmail/v1/users/me/messages/send")
      = .deny forbiddenResp :=
  ⟨by decide, blocked_paths_denied _ _ (by decide)⟩

/-- C5. The allowlist is fail-closed: for every (method, path) whose
normalized form is not `/health`, not a documentation path, not prefixed by
`/approval`, and matches no `ALLOWED_OPERATIONS` entry under the
segment-pattern rules, the middleware responds 403 with the same generic
forbidden envelope used for blocked paths and never forwards the request. -/
theorem allowlist_fail_closed (method path : PyStr)
    (h1 : pyLower (pyRstripSlash path) ≠ pstr "/health")
    (h2 : pyLower (pyRstripSlash path) ≠ pstr "/docs")
    (h3 : pyLower (pyRstripSlash path) ≠ pstr "/openapi.json")
    (h4 : pyLower (pyRstripSlash path) ≠ pstr "/redoc")
    (h5 : (pstr "/approval").isPrefixOf (pyLower (pyRstripSlash path)) = false)
    (h6 : ALLOWED_OPERATIONS.any
      (fun mp => pyUpper method = mp.1 && matches_path_pattern (pyRstripSlash path) mp.2) = false) :
    check_blocked_operations method path = .deny forbiddenResp :=
  deny_of_not_allowed method path h1 h2 h3 h4 h5 h6

/-- C5 witness: an unlisted but plausible REST operation (DELETE on a
message) is denied. -/
theorem allowlist_fail_closed_witness :
    check_blocked_operations (pstr "DELETE") (pstr "/gmail/v1/users/me/messages/m1")
      = .deny forbiddenResp :=
  allowlist_fail_closed _ _ (by decide) (by decide) (by decide) (by decide) (by decide) (by decide)

/-- C6. The web-mode branch of `ConfirmationHandler.confirm` passes the
keywords `message_subject`, `message_from` and `message_snippet` to
`WebConfirmationQueue.add_request`, whose signature does not declare them,
so the call raises `TypeError` instead of storing the message context and
completing: the code contradicts the claim (and its own caller). -/
theorem web_confirm_type_error :
    web_confirm_call_raises_type_error = true ∧
    "message_subject" ∈ confirm_web_call_kwargs ∧ "message_subject" ∉ add_request_params ∧
    "message_from" ∈ confirm_web_call_kwargs ∧ "message_from" ∉ add_request_params ∧
    "message_snippet" ∈ confirm_web_call_kwargs ∧ "message_snippet" ∉ add_request_params := by
  refine ⟨by decide, ?_, ?_, ?_, ?_, ?_, ?_⟩ <;> decide

/-- C7. `approve`/`reject` on an id not in the pending table return false
and leave the state untouched; after adding A, B, C in that order,
`get_pending` returns exactly [A, B, C]; after approving B it returns
[A, C], B is gone from the table with its future settled true, while the
futures of A and C remain unsettled. -/
theorem queue_order_and_unknown_ids :
    (∀ st rid, alookup rid st.byId = none →
      approve_step st rid = (st, false) ∧ reject_step st rid = (st, false)) ∧
    (get_pending (add_request_entry (add_request_entry (add_request_entry initState
        ⟨1, pstr "GET", pstr "/a"⟩) ⟨2, pstr "GET", pstr "/b"⟩) ⟨3, pstr "GET", pstr "/c"⟩)
      = [⟨1, pstr "GET", pstr "/a"⟩, ⟨2, pstr "GET", pstr "/b"⟩, ⟨3, pstr "GET", pstr "/c"⟩]) ∧
    ((add_request_entry (add_request_entry (add_request_entry initState
        ⟨1, pstr "GET", pstr "/a"⟩) ⟨2, pstr "GET", pstr "/b"⟩) ⟨3, pstr "GET", pstr "/c"⟩)
      |> fun st3 =>
        (approve_step st3 2).2 = true ∧
        get_pending (approve_step st3 2).1
          = [⟨1, pstr "GET", pstr "/a"⟩, ⟨3, pstr "GET", pstr "/c"⟩] ∧
        alookup 1 (approve_step st3 2).1.futs = some .unset ∧
        alookup 3 (approve_step st3 2).1.futs = some .unset ∧
        alookup 2 (approve_step st3 2).1.futs = some (.settled true) ∧
        alookup 2 (approve_step st3 2).1.byId = none) := by
  refine ⟨?_, by decide, ?_, ?_, ?_, ?_, ?_, ?_⟩
  · intro st rid h
    constructor <;> simp [approve_step, reject_step, h]
  all_goals decide

/-- C7 witness: approve and reject of an unknown id on the empty queue. -/
theorem queue_unknown_id_witness :
    approve_step initState 5 = (initState, false) ∧
    reject_step initState 5 = (initState, false) :=
  queue_order_and_unknown_ids.1 initState 5 rfl

/-- C8. Console confirmation returns true exactly when the input line,
stripped and lowercased, is `y` or `yes`; every other line — the empty
line included — returns false, and deadline expiry is an ordinary false
return (the `TimeoutError` is absorbed inside `_get_input`), not an error
surfaced to the caller. -/
theorem console_confirmation_decision :
    (∀ raw : PyStr, confirm_console raw false = true ↔
      (pyLower (pyStrip raw) = pstr "y" ∨ pyLower (pyStrip raw) = pstr "yes")) ∧
    (∀ raw : PyStr, confirm_console raw true = false) := by
  constructor
  · intro raw
    simp [confirm_console, get_input_result, confirm_console_decision]
  · intro raw
    rfl

/-- C9. The Gmail thread route `GET /gmail/v1/users/{uid}/threads/{tid}`
has a registered handler but no allowlist entry: for every user id and
thread id (single path segments, hence slash-free and non-empty), the
middleware denies the request with the 403 forbidden envelope, so
`get_thread` is unreachable through the HTTP surface. -/
theorem threads_route_unreachable (uid tid : PyStr)
    (huid : '/' ∉ uid) (htid : '/' ∉ tid) (ht0 : tid ≠ []) :
    check_blocked_operations (pstr "GET")
      (pstr "/gmail/v1/users/" ++ uid ++ pstr "/threads/" ++ tid) = .deny forbiddenResp := by
  have hrs : pyRstripSlash (pstr "/gmail/v1/users/" ++ uid ++ pstr "/threads/" ++ tid)
      = pstr "/gmail/v1/users/" ++ uid ++ pstr "/threads/" ++ tid :=
    pyRstripSlash_append_right _ tid htid ht0
  have hU : '/' ∉ pyLower uid := pyLower_no_slash huid
  have hT : '/' ∉ pyLower tid := pyLower_no_slash htid
  have hshape : pyLower (pstr "/gmail/v1/users/" ++ uid ++ pstr "/threads/" ++ tid)
      = '/' :: (pstr "gmail" ++ '/' :: (pstr "v1" ++ '/' :: (pstr "users" ++ '/' ::
          (pyLower uid ++ '/' :: (pstr "threads" ++ '/' :: pyLower tid))))) := by
    simp only [pyLower, List.map_append, List.append_assoc]
    rfl
  have hsplit : pySplit (pyLower (pstr "/gmail/v1/users/" ++ uid ++ pstr "/threads/" ++ tid))
      = [[], pstr "gmail", pstr "v1", pstr "users", pyLower uid, pstr "threads", pyLower tid] := by
    rw [pySplit, hshape, splitOnChar_slash_cons,
        splitOnChar_append_cons _ _ _ (by decide),
        splitOnChar_append_cons _ _ _ (by decide),
        splitOnChar_append_cons _ _ _ (by decide),
        splitOnChar_append_cons _ _ _ hU,
        splitOnChar_append_cons _ _ _ (by decide),
        splitOnChar_not_mem _ _ hT]
  refine deny_of_not_allowed _ _ ?_ ?_ ?_ ?_ ?_ ?_
  · rw [hrs]
    exact list_ne_of_get1 (by decide) rfl rfl
  · rw [hrs]
    exact list_ne_of_get1 (by decide) rfl rfl
  · rw [hrs]
    exact list_ne_of_get1 (by decide) rfl rfl
  · rw [hrs]
    exact list_ne_of_get1 (by decide) rfl rfl
  · rw [hrs]
    rfl
  · rw [hrs]
    simp only [matches_path_pattern, hsplit]
    exact threads_get_not_allowed (pyLower uid) (pyLower tid)

/-- C9 witness: the thread route for user `me`, thread `t1` is denied. -/
theorem threads_route_unreachable_witness :
    check_blocked_operations (pstr "GET")
      (pstr "/gmail/v1/users/" ++ pstr "me" ++ pstr "/threads/" ++ pstr "t1")
      = .deny forbiddenResp :=
  threads_route_unreachable (pstr "me") (pstr "t1") (by decide) (by decide) (by decide)

/-- C10. A `{name}` placeholder segment matches any segment, the empty one
included: any path whose segment count equals the pattern's and whose
non-placeholder segments agree (case-insensitively, post-lowering) matches,
and concretely `/gmail/v1/users//messages` with an empty user-id segment
matches through the allow table while `/gmail/v1/users//messages/send`
matches through the block table. -/
theorem placeholder_matches_empty_segment :
    (∀ path pat : PyStr,
      (pySplit (pyLower pat)).length = (pySplit (pyLower path)).length →
      (∀ pq ∈ (pySplit (pyLower pat)).zip (pySplit (pyLower path)),
        isPlaceholder pq.1 = true ∨ pq.1 = pq.2) →
      matches_path_pattern path pat = true) ∧
    matches_path_pattern (pstr "/gmail/v1/users//messages")
      (pstr "/gmail/v1/users/{user_id}/messages") = true ∧
    is_allowed_path (pstr "/gmail/v1/users//messages") (pstr "GET") = true ∧
    is_blocked_path (pstr "/gmail/v1/users//messages/send") = true := by
  refine ⟨?_, by decide, by decide, by decide⟩
  intro path pat hlen h
  exact segMatches_of_forall _ _ hlen h

/-- C10 witness: an empty calendar-id segment matches its placeholder. -/
theorem placeholder_matches_empty_segment_witness :
    matches_path_pattern (pstr "/calendar/v3/calendars//events")
      (pstr "/calendar/v3/calendars/{calendar_id}/events") = true :=
  placeholder_matches_empty_segment.1 _ _ (by decide) (by decide)

end ApiProxy
